import Mathlib

/-!
Verification of the smor-ting Appium test-infrastructure core:
a shallow embedding of `appium/config/appium_config.py` (capability
profile builder and port allocator), of the locator-resolution part of
`appium/tests/common/page_objects/base_page.py`, and of the session
teardown in `appium/tests/base_test.py`, together with theorems about
the properties those modules are claimed to satisfy.

Python values are embedded as follows: environment variables become an
explicit snapshot record of `Option String` fields; `os.getpid()` and
the OS-level "is this TCP port bindable" probe become explicit
parameters; Python exceptions become an `Except PyErr` result.  All
string helpers are reimplemented with structural recursion over
`List Char` so that every definition evaluates inside the kernel.
-/

namespace SmorTing

/-- Python exception values relevant to the embedded code. -/
inductive PyErr
  /-- ValueError, e.g. from `int()` applied to a non-numeric string. -/
  | valueError
  /-- IndexError, e.g. from `seq[0]` on an empty sequence. -/
  | indexError
  /-- selenium TimeoutException; `WebDriverWait.until` raises it with
  the given message (the message defaults to the empty string). -/
  | timeoutError (msg : String)
  /-- any WebDriver/session level error, e.g. from `driver.quit()`. -/
  | webDriverError (msg : String)
deriving DecidableEq, Repr

/-! Python string/number builtins, embedded with structural recursion. -/

/-- Value of a decimal digit character, `none` for non-digits. -/
def digitVal (c : Char) : Option Nat :=
  if c.isDigit then some (c.toNat - '0'.toNat) else none

/-- Accumulate a decimal number over a character list; `none` as soon as
a non-digit appears. -/
def digitsToNat (acc : Nat) : List Char → Option Nat
  | [] => some acc
  | c :: t =>
    match digitVal c with
    | some d => digitsToNat (acc * 10 + d) t
    | none => none

/-- Python `int(s)` on the strings this code base passes to it: an
optional sign followed by at least one decimal digit; `none` models the
`ValueError` raise.  (Python additionally strips whitespace and allows
underscore separators; no caller here produces those forms.) -/
def pyIntChars : List Char → Option Int
  | [] => none
  | c :: rest =>
    if c = '-' then
      match rest with
      | [] => none
      | _ => (digitsToNat 0 rest).map (fun n => -(n : Int))
    else if c = '+' then
      match rest with
      | [] => none
      | _ => (digitsToNat 0 rest).map (fun n => (n : Int))
    else
      (digitsToNat 0 (c :: rest)).map (fun n => (n : Int))

def pyInt (s : String) : Option Int := pyIntChars s.data

/-- Python `int(s)` as an `Except` computation: a failed parse raises
`ValueError`. -/
def pyIntE (s : String) : Except PyErr Int :=
  match pyInt s with
  | some n => .ok n
  | none => .error .valueError

/-- Python truthiness of a string: nonempty. -/
def pyTruthy (s : String) : Bool := !s.data.isEmpty

/-- Python `s.isdigit()`: nonempty and all characters decimal digits. -/
def pyIsDigit (s : String) : Bool :=
  !s.data.isEmpty && s.data.all (·.isDigit)

/-- Containment test on character lists: some suffix of `hay` has
`needle` as a prefix. -/
def charsContains (needle : List Char) : List Char → Bool
  | [] => needle.isEmpty
  | c :: t => needle.isPrefixOf (c :: t) || charsContains needle t

/-- Python `needle in hay` substring test. -/
def pyContains (needle hay : String) : Bool :=
  charsContains needle.data hay.data

/-- Fuel-indexed replacement of every occurrence of `needle` (left to
right, non-overlapping), enough fuel being the length of the scanned
list; structural in the fuel so the kernel can evaluate it. -/
def replaceFuel (needle repl : List Char) : Nat → List Char → List Char
  | 0, rest => rest
  | _ + 1, [] => []
  | f + 1, c :: t =>
    if needle.isPrefixOf (c :: t) then
      repl ++ replaceFuel needle repl f ((c :: t).drop needle.length)
    else
      c :: replaceFuel needle repl f t

/-- Python `s.replace(needle, repl)` for nonempty `needle` (the only
use in this code base is `worker_id.replace("gw", "")`). -/
def pyReplace (s needle repl : String) : String :=
  ⟨replaceFuel needle.data repl.data s.data.length s.data⟩

/-- Python `s.lower()`. -/
def pyLower (s : String) : String := ⟨s.data.map Char.toLower⟩

/-! Environment-variable snapshot.  A field is `none` when the variable
is unset; `some v` when it is set to `v` (possibly empty). -/

/-- Snapshot of the environment variables read by `appium_config.py`. -/
structure Env where
  APP_PATH : Option String := none
  ANDROID_AUTOMATION_NAME : Option String := none
  ANDROID_API_LEVEL : Option String := none
  ANDROID_DEVICE_NAME : Option String := none
  ANDROID_APP_WAIT_ACTIVITY : Option String := none
  ANDROID_NO_RESET : Option String := none
  ANDROID_INSTALL_TIMEOUT_MS : Option String := none
  UIA2_INSTALL_TIMEOUT_MS : Option String := none
  UIA2_LAUNCH_TIMEOUT_MS : Option String := none
  ADB_EXEC_TIMEOUT_MS : Option String := none
  ANDROID_AVD_NAME : Option String := none
  SYSTEM_PORT_OFFSET : Option String := none
  PYTEST_XDIST_WORKER_ID : Option String := none
  IOS_VERSION : Option String := none
  IOS_DEVICE_NAME : Option String := none
  IOS_BUNDLE_ID : Option String := none
  WDA_LAUNCH_TIMEOUT_MS : Option String := none
  WDA_CONNECTION_TIMEOUT_MS : Option String := none
  WDA_STARTUP_RETRIES : Option String := none
  WDA_STARTUP_RETRY_INTERVAL_MS : Option String := none
  XCODE_ORG_ID : Option String := none
  XCODE_SIGNING_ID : Option String := none
  WDA_BUNDLE_ID : Option String := none
  USE_PREBUILT_WDA : Option String := none
  SIMULATOR_STARTUP_TIMEOUT_MS : Option String := none
deriving DecidableEq, Repr

/-- Snapshot with every variable unset. -/
def emptyEnv : Env := {}

/-- App artifact path as computed by `AppiumConfig._get_app_build_path`;
the two defaults are fixed paths under the project root
(`.../app-debug.apk` for Android, `.../Runner.app` for iOS). -/
inductive AppPath
  /-- the `APP_PATH` override value. -/
  | fromEnv (p : String)
  /-- `<project_root>/build/app/outputs/flutter-apk/app-debug.apk`. -/
  | androidDefaultApk
  /-- `<project_root>/build/ios/iphonesimulator/Runner.app`. -/
  | iosDefaultApp
deriving DecidableEq, Repr

/-- Embedding of `AppiumConfig._get_app_build_path`: a nonempty
`APP_PATH` wins; otherwise the platform default. -/
def _get_app_build_path (e : Env) (platform_name : String) : AppPath :=
  if pyTruthy (e.APP_PATH.getD "") then .fromEnv (e.APP_PATH.getD "")
  else if platform_name == "android" then .androidDefaultApk
  else .iosDefaultApp

/-- Embedding of the `AppiumConfig` instance state set in `__init__`:
both constructor arguments are lowercased, and the app build path is
computed once at construction time. -/
structure AppiumConfig where
  platform_name : String
  environment : String
  app_build_path : AppPath
deriving DecidableEq, Repr

/-- Embedding of `AppiumConfig.__init__(platform_name, environment)`
reading the environment snapshot `e`. -/
def mkAppiumConfig (platform_name environment : String) (e : Env) : AppiumConfig :=
  let p := pyLower platform_name
  { platform_name := p
    environment := pyLower environment
    app_build_path := _get_app_build_path e p }

/-! Port allocator (`AppiumConfig._get_system_port`).  The OS-level
bind-and-release probe `is_free` is an explicit parameter `free`;
`os.getpid()` is the explicit parameter `pid`. -/

/-- Base port constant of `_get_system_port` (`base_port = 8200`). -/
def base_port : Int := 8200

/-- Scan loop of `_get_system_port`: `for delta in range(0, fuel)`,
returning the first candidate `seed + delta` for which the
bind-and-release probe succeeds, `none` when every candidate fails. -/
def scanPorts (free : Int → Bool) (seed : Int) : Nat → Option Int
  | 0 => none
  | fuel + 1 => if free seed then some seed else scanPorts free (seed + 1) fuel

/-- Worker-number derivation in `_get_system_port`:
`worker_id = os.getenv("PYTEST_XDIST_WORKER_ID", "master")`, and when
`"gw" in worker_id`, `int(worker_id.replace("gw", ""))` (which raises
`ValueError` when the remainder is not an integer, e.g. for `"gw"`),
otherwise `0`. -/
def worker_num (e : Env) : Except PyErr Int :=
  let worker_id := e.PYTEST_XDIST_WORKER_ID.getD "master"
  if pyContains "gw" worker_id then pyIntE (pyReplace worker_id "gw" "")
  else .ok 0

/-- Result of the 200-candidate scan loop mapped to the function's
return value: the first free candidate, or `base_port` as the fallback
`return` after the loop. -/
def scanResultToPort : Option Int → Except PyErr Int
  | some p => .ok p
  | none => .ok base_port

/-- Seed-and-scan branch of `_get_system_port` (taken when no valid
`SYSTEM_PORT_OFFSET` is present): the scan starts at the seed
`base_port + worker_num + pid % 100` and covers 200 candidates. -/
def _get_system_port_scan (e : Env) (pid : Nat) (free : Int → Bool) :
    Except PyErr Int :=
  match worker_num e with
  | .error er => .error er
  | .ok wn =>
    scanResultToPort (scanPorts free (base_port + wn + ((pid % 100 : Nat) : Int)) 200)

/-- Offset branch of `_get_system_port`: when the `SYSTEM_PORT_OFFSET`
value passes the `isdigit` guard, `base_port + int(offset)` is returned
unconditionally (no bind probe); otherwise fall through to the
seed-and-scan branch. -/
def offsetPort (off : String) (e : Env) (pid : Nat) (free : Int → Bool) :
    Except PyErr Int :=
  if pyIsDigit off then
    match pyInt off with
    | some k => .ok (base_port + k)
    | none => .error .valueError
  else _get_system_port_scan e pid free

/-- Embedding of `AppiumConfig._get_system_port`: honor a digit-valued
`SYSTEM_PORT_OFFSET` as `base_port + offset` (without probing),
otherwise seed-and-scan. -/
def _get_system_port (e : Env) (pid : Nat) (free : Int → Bool) :
    Except PyErr Int :=
  match e.SYSTEM_PORT_OFFSET with
  | some off => offsetPort off e pid free
  | none => _get_system_port_scan e pid free

/-! Android capability builder (`AppiumConfig.get_android_capabilities`).
The Python method builds one dict literal; its only failure points are
the four `int(os.getenv(...))` parses and the `_get_system_port()` call,
evaluated in that order, so the embedding first runs those five
computations (`androidNumerics`) and then assembles the record
(`android_caps_record`) from the remaining pure `os.getenv` reads. -/

/-- Android capability set, one field per key of the dict built by
`get_android_capabilities`; the four CI-only keys are `Option` fields,
`none` meaning the key is absent from the dict. -/
structure AndroidCaps where
  platformName : String
  platformVersion : String
  deviceName : String
  automationName : String
  app : AppPath
  appPackage : String
  appActivity : String
  appWaitActivity : String
  autoGrantPermissions : Bool
  noReset : Bool
  fullReset : Bool
  newCommandTimeout : Int
  androidInstallTimeout : Int
  uiautomator2ServerInstallTimeout : Int
  uiautomator2ServerLaunchTimeout : Int
  adbExecTimeout : Int
  avd : String
  avdLaunchTimeout : Int
  avdReadyTimeout : Int
  systemPort : Int
  skipDeviceInit : Bool
  ignoreHiddenApiPolicyError : Bool
  disableWindowAnimation : Bool
  isHeadless : Option Bool
  avdArgs : Option String
  deviceReadyTimeout : Option Int
  androidDeviceReadyTimeout : Option Int
deriving DecidableEq, Repr

/-- Failing subcomputations of `get_android_capabilities`, in source
evaluation order: `ANDROID_INSTALL_TIMEOUT_MS`, `UIA2_INSTALL_TIMEOUT_MS`,
`UIA2_LAUNCH_TIMEOUT_MS`, `ADB_EXEC_TIMEOUT_MS` parses, then
`_get_system_port`. -/
def androidNumerics (e : Env) (pid : Nat) (free : Int → Bool) :
    Except PyErr (Int × Int × Int × Int × Int) :=
  match pyIntE (e.ANDROID_INSTALL_TIMEOUT_MS.getD "300000"),
        pyIntE (e.UIA2_INSTALL_TIMEOUT_MS.getD "300000"),
        pyIntE (e.UIA2_LAUNCH_TIMEOUT_MS.getD "300000"),
        pyIntE (e.ADB_EXEC_TIMEOUT_MS.getD "300000"),
        _get_system_port e pid free with
  | .ok a, .ok b, .ok c, .ok d, .ok sp => .ok (a, b, c, d, sp)
  | .error er, _, _, _, _ => .error er
  | _, .error er, _, _, _ => .error er
  | _, _, .error er, _, _ => .error er
  | _, _, _, .error er, _ => .error er
  | _, _, _, _, .error er => .error er

/-- Pure part of `get_android_capabilities`: the dict literal, with the
five already-computed numeric values substituted in, plus the CI-only
`capabilities.update({...})` block reflected in the four `Option`
fields. -/
def android_caps_record (cfg : AppiumConfig) (e : Env)
    (nums : Int × Int × Int × Int × Int) : AndroidCaps :=
  let is_ci := cfg.environment == "ci"
  { platformName := "Android"
    platformVersion := e.ANDROID_API_LEVEL.getD "34"
    deviceName := e.ANDROID_DEVICE_NAME.getD "Android Emulator"
    automationName := e.ANDROID_AUTOMATION_NAME.getD "UiAutomator2"
    app := cfg.app_build_path
    appPackage := "com.smorting.app.smor_ting_mobile"
    appActivity := "com.smorting.app.smor_ting_mobile.MainActivity"
    appWaitActivity := e.ANDROID_APP_WAIT_ACTIVITY.getD "*"
    autoGrantPermissions := true
    noReset := if is_ci then false else (e.ANDROID_NO_RESET.getD "1" == "1")
    fullReset := if is_ci then true else false
    newCommandTimeout := 300
    androidInstallTimeout := nums.1
    uiautomator2ServerInstallTimeout := nums.2.1
    uiautomator2ServerLaunchTimeout := nums.2.2.1
    adbExecTimeout := nums.2.2.2.1
    avd := e.ANDROID_AVD_NAME.getD (e.ANDROID_DEVICE_NAME.getD "Medium_Phone_API_36.0")
    avdLaunchTimeout := 180000
    avdReadyTimeout := 180000
    systemPort := nums.2.2.2.2
    skipDeviceInit := true
    ignoreHiddenApiPolicyError := true
    disableWindowAnimation := true
    isHeadless := if is_ci then some true else none
    avdArgs := if is_ci then some "-no-audio -no-window -gpu swiftshader_indirect" else none
    deviceReadyTimeout := if is_ci then some 120 else none
    androidDeviceReadyTimeout := if is_ci then some 120 else none }

/-- Embedding of `AppiumConfig.get_android_capabilities`. -/
def get_android_capabilities (cfg : AppiumConfig) (e : Env) (pid : Nat)
    (free : Int → Bool) : Except PyErr AndroidCaps :=
  (androidNumerics e pid free).map (android_caps_record cfg e)

/-! iOS capability builder (`AppiumConfig.get_ios_capabilities`). -/

/-- iOS capability set, one field per key of the dict built by
`get_ios_capabilities`.  `bundleId` is `none` when `IOS_BUNDLE_ID` is
unset or empty (the key is then omitted); `xcodeOrgId` and
`updatedWDABundleId` hold the raw `os.getenv` result (`none` means the
key is present with value `None`); the three simulator keys are `none`
when the simulator `update` block did not run. -/
structure IOSCaps where
  platformName : String
  platformVersion : String
  deviceName : String
  automationName : String
  app : AppPath
  bundleId : Option String
  noReset : Bool
  fullReset : Bool
  newCommandTimeout : Int
  wdaLaunchTimeout : Int
  wdaConnectionTimeout : Int
  wdaStartupRetries : Int
  wdaStartupRetryInterval : Int
  iosInstallPause : Int
  autoAcceptAlerts : Bool
  xcodeOrgId : Option String
  xcodeSigningId : String
  updatedWDABundleId : Option String
  usePrebuiltWDA : Bool
  showXcodeLog : Bool
  shouldUseSingletonTestManager : Bool
  isSimulator : Option Bool
  simulatorStartupTimeout : Option Int
  useSimulatorPasteboard : Option Bool
deriving DecidableEq, Repr

/-- Failing subcomputations of the main iOS dict literal, in source
order: the `WDA_LAUNCH_TIMEOUT_MS`, `WDA_CONNECTION_TIMEOUT_MS`,
`WDA_STARTUP_RETRIES`, `WDA_STARTUP_RETRY_INTERVAL_MS` parses. -/
def iosNumerics (e : Env) : Except PyErr (Int × Int × Int × Int) :=
  match pyIntE (e.WDA_LAUNCH_TIMEOUT_MS.getD "180000"),
        pyIntE (e.WDA_CONNECTION_TIMEOUT_MS.getD "180000"),
        pyIntE (e.WDA_STARTUP_RETRIES.getD "2"),
        pyIntE (e.WDA_STARTUP_RETRY_INTERVAL_MS.getD "5000") with
  | .ok a, .ok b, .ok c, .ok d => .ok (a, b, c, d)
  | .error er, _, _, _ => .error er
  | _, .error er, _, _ => .error er
  | _, _, .error er, _ => .error er
  | _, _, _, .error er => .error er

/-- Pure part of the main iOS dict literal. -/
def ios_caps_record (cfg : AppiumConfig) (e : Env)
    (nums : Int × Int × Int × Int) : IOSCaps :=
  { platformName := "iOS"
    platformVersion := e.IOS_VERSION.getD "16.4"
    deviceName := e.IOS_DEVICE_NAME.getD "iPhone 13"
    automationName := "XCUITest"
    app := cfg.app_build_path
    bundleId :=
      match e.IOS_BUNDLE_ID with
      | some s => if pyTruthy s then some s else none
      | none => none
    noReset := false
    fullReset := true
    newCommandTimeout := 300
    wdaLaunchTimeout := nums.1
    wdaConnectionTimeout := nums.2.1
    wdaStartupRetries := nums.2.2.1
    wdaStartupRetryInterval := nums.2.2.2
    iosInstallPause := 8000
    autoAcceptAlerts := true
    xcodeOrgId := e.XCODE_ORG_ID
    xcodeSigningId := e.XCODE_SIGNING_ID.getD "iPhone Developer"
    updatedWDABundleId := e.WDA_BUNDLE_ID
    usePrebuiltWDA := e.USE_PREBUILT_WDA.getD "0" == "1"
    showXcodeLog := true
    shouldUseSingletonTestManager := false
    isSimulator := none
    simulatorStartupTimeout := none
    useSimulatorPasteboard := none }

/-- Simulator-settings step of `get_ios_capabilities`: when
`"Simulator" in deviceName` or the environment is `ci`, apply the
simulator `update` block (whose `SIMULATOR_STARTUP_TIMEOUT_MS` parse is
a further failure point); otherwise the main dict is final. -/
def ios_caps_with_sim (cfg : AppiumConfig) (e : Env)
    (nums : Int × Int × Int × Int) : Except PyErr IOSCaps :=
  if pyContains "Simulator" (ios_caps_record cfg e nums).deviceName
      || cfg.environment == "ci" then
    match pyIntE (e.SIMULATOR_STARTUP_TIMEOUT_MS.getD "300000") with
    | .ok st =>
      .ok { ios_caps_record cfg e nums with
            isSimulator := some true
            simulatorStartupTimeout := some st
            useSimulatorPasteboard := some true }
    | .error er => .error er
  else .ok (ios_caps_record cfg e nums)

/-- Embedding of `AppiumConfig.get_ios_capabilities`: build the main
dict, then apply the simulator-settings step. -/
def get_ios_capabilities (cfg : AppiumConfig) (e : Env) :
    Except PyErr IOSCaps :=
  match iosNumerics e with
  | .error er => .error er
  | .ok nums => ios_caps_with_sim cfg e nums

/-! Merged capability profile (`AppiumConfig.get_capabilities`). -/

/-- Platform-specific half of the merged profile. -/
inductive PlatformCaps
  | android (c : AndroidCaps)
  | ios (c : IOSCaps)
deriving DecidableEq, Repr

/-- Merged capability profile: the four base keys of
`get_capabilities` plus the platform-specific dict.  The Python
`base_capabilities.update(platform_caps)` union is faithful as a record
pairing because the base keys and the platform keys are disjoint. -/
structure Capabilities where
  orientation : String
  unicodeKeyboard : Bool
  resetKeyboard : Bool
  clearSystemFiles : Bool
  platform : PlatformCaps
deriving DecidableEq, Repr

/-- Embedding of `AppiumConfig.get_capabilities`: Android capabilities
when the (lowercased) platform name equals `"android"`, iOS
capabilities for every other platform name. -/
def get_capabilities (cfg : AppiumConfig) (e : Env) (pid : Nat)
    (free : Int → Bool) : Except PyErr Capabilities :=
  if cfg.platform_name == "android" then
    (get_android_capabilities cfg e pid free).map fun c =>
      { orientation := "PORTRAIT"
        unicodeKeyboard := true
        resetKeyboard := true
        clearSystemFiles := true
        platform := .android c }
  else
    (get_ios_capabilities cfg e).map fun c =>
      { orientation := "PORTRAIT"
        unicodeKeyboard := true
        resetKeyboard := true
        clearSystemFiles := true
        platform := .ios c }

/-- Profile built from scratch exactly as callers do:
`AppiumConfig(platform_name, environment)` followed by
`get_capabilities()`. -/
def build_profile (platform_name environment : String) (e : Env)
    (pid : Nat) (free : Int → Bool) : Except PyErr Capabilities :=
  get_capabilities (mkAppiumConfig platform_name environment e) e pid free

/-! Locator resolution (`base_page.py`).  A locator is the
`(strategy, selector)` tuple used throughout `BasePage`.  The driver's
behaviour is abstracted into functions: `resolve_locator` is the
outcome of `wait_for_element` on a native locator within its timeout
(`some element`, or `none` for a `TimeoutException`); `resolve_flutter`
is the outcome of the Flutter-finder `WebDriverWait` (`none` covers any
exception in that attempt); element handles are numbered `Nat`s. -/

/-- Native locator tuple `(strategy, selector)` as passed to
`driver.find_element`. -/
abbrev Loc := String × String

/-- Outcome of one `is_element_present` probe inside `choose_locator`:
the element is present, it is absent (the probe returns `False`), or
the probe raises (caught by the `except Exception: continue`). -/
inductive ProbeResult
  | present
  | absent
  | raised
deriving DecidableEq, Repr

/-- Loop of `BasePage.choose_locator`: first locator whose probe
reports presence; `none` when the loop falls through (absent or raised
probes are both skipped). -/
def choose_locator_loop (probe : Loc → ProbeResult) : List Loc → Option Loc
  | [] => none
  | l :: rest =>
    match probe l with
    | .present => some l
    | _ => choose_locator_loop probe rest

/-- Embedding of `BasePage.choose_locator`: return the first locator
probed present, otherwise fall back to `locators[0]` — which on an
empty argument tuple raises `IndexError`. -/
def choose_locator (probe : Loc → ProbeResult) (locators : List Loc) :
    Except PyErr Loc :=
  match choose_locator_loop probe locators with
  | some l => .ok l
  | none =>
    match locators with
    | [] => .error .indexError
    | l :: _ => .ok l

/-- Locators whose presence `choose_locator` probes, in order: the
prefix of the chain up to and including the first present locator (the
`locators[0]` fallback performs no probe). -/
def choose_locator_attempts (probe : Loc → ProbeResult) :
    List Loc → List Loc
  | [] => []
  | l :: rest =>
    match probe l with
    | .present => [l]
    | _ => l :: choose_locator_attempts probe rest

/-- Element handle returned by a successful resolution. -/
abbrev Elem := Nat

/-- Driver-behaviour model backing a `BasePage`:
`flutter_available` is `FLUTTER_DRIVER_AVAILABLE and self.flutter_finder
is not None`; the two resolve functions give each attempt's outcome
within its timeout. -/
structure PageDriver where
  flutter_available : Bool
  resolve_flutter : String → Option Elem
  resolve_locator : Loc → Option Elem

/-- Embedding of `BasePage.wait_for_element`: the element, or a
`TimeoutException` — which `WebDriverWait.until` raises with an empty
message (no locator information is attached to it). -/
def wait_for_element (pg : PageDriver) (loc : Loc) : Except PyErr Elem :=
  match pg.resolve_locator loc with
  | some el => .ok el
  | none => .error (.timeoutError "")

/-- Embedding of `BasePage.find_element_flutter_first`: try the
Flutter-finder wait when the Flutter driver is available (any exception
there is swallowed), then fall back to `wait_for_element` on the native
locator. -/
def find_element_flutter_first (pg : PageDriver) (flutter_key : String)
    (fallback_locator : Loc) : Except PyErr Elem :=
  if pg.flutter_available then
    match pg.resolve_flutter flutter_key with
    | some el => .ok el
    | none => wait_for_element pg fallback_locator
  else
    wait_for_element pg fallback_locator

/-- Embedding of `BasePage.is_element_present_flutter_first`: `true`
when the find succeeds, `false` when it raises anything. -/
def is_element_present_flutter_first (pg : PageDriver) (flutter_key : String)
    (fallback_locator : Loc) : Bool :=
  match find_element_flutter_first pg flutter_key fallback_locator with
  | .ok _ => true
  | .error _ => false

/-- One descriptor of the two-backend chain tried by
`find_element_flutter_first`. -/
inductive Descriptor
  | flutterKey (k : String)
  | native (l : Loc)
deriving DecidableEq, Repr

/-- Selector text of a descriptor (the flutter value key, or the native
selector expression). -/
def descriptorText : Descriptor → String
  | .flutterKey k => k
  | .native l => l.2

/-- Descriptors whose resolution `find_element_flutter_first` attempts,
in order, following the same control flow as the function itself. -/
def find_flutter_first_attempts (pg : PageDriver) (flutter_key : String)
    (fallback_locator : Loc) : List Descriptor :=
  if pg.flutter_available then
    match pg.resolve_flutter flutter_key with
    | some _ => [.flutterKey flutter_key]
    | none => [.flutterKey flutter_key, .native fallback_locator]
  else
    [.native fallback_locator]

/-- An error message mentions every descriptor of a list when each
descriptor's selector text occurs in it as a substring. -/
def msgCarries (msg : String) (ds : List Descriptor) : Bool :=
  ds.all fun d => pyContains (descriptorText d) msg

/-! Session teardown (`BaseTest.teardown_method` in `base_test.py`).
The driver handle is modelled with the outcome its `quit()` call would
have.  The screenshot branch of `teardown_method` (lines 82-84) is not
modelled: its guard `hasattr(self, '_outcome')` is false in this
repository (the hook that would set `_outcome` lives in `base_test.py`,
which pytest never loads as a plugin), and `_take_failure_screenshot`
swallows every exception anyway.  The logger only appends to a log. -/

deriving instance DecidableEq for Except

/-- Driver handle held in `self.driver`, carrying the outcome of its
`quit()` call. -/
structure DriverHandle where
  quit_result : Except PyErr Unit
deriving DecidableEq, Repr

/-- Observable outcome of one `teardown_method` run. -/
structure TeardownOutcome where
  /-- value of `self.driver` afterwards. -/
  driver : Option DriverHandle
  /-- number of `driver.quit()` invocations performed. -/
  quit_calls : Nat
  /-- messages passed to `self.logger.error`. -/
  error_logs : List String
  /-- exception propagated out of `teardown_method`, if any. -/
  raised : Option PyErr
deriving DecidableEq, Repr

/-- Log line of `teardown_method`'s quit handler
(`self.logger.error(f"Error quitting driver: {e}")`). -/
def quitErrorLog (e : PyErr) : String :=
  match e with
  | .webDriverError m => "Error quitting driver: " ++ m
  | .timeoutError m => "Error quitting driver: " ++ m
  | .valueError => "Error quitting driver: ValueError"
  | .indexError => "Error quitting driver: IndexError"

/-- Quit branch of `teardown_method`, entered when `self.driver` is
set: `try: quit()`, `except Exception:` logging the error,
`finally: self.driver = None`. -/
def quit_and_clear (d : DriverHandle) : TeardownOutcome :=
  match d.quit_result with
  | .ok _ => { driver := none, quit_calls := 1, error_logs := [], raised := none }
  | .error e =>
    { driver := none, quit_calls := 1, error_logs := [quitErrorLog e], raised := none }

/-- Embedding of the driver-teardown block of
`BaseTest.teardown_method`: the `if self.driver:` guard followed by the
quit branch. -/
def teardown_method : Option DriverHandle → TeardownOutcome
  | none => { driver := none, quit_calls := 0, error_logs := [], raised := none }
  | some d => quit_and_clear d

/-- Lifecycle of one test method under pytest's xunit protocol: the
test body runs (possibly raising), then `teardown_method` is invoked
regardless of the body's outcome; the failure reported for the test is
the body's own exception. -/
def run_test_method (driver : Option DriverHandle)
    (body : Except PyErr Unit) : TeardownOutcome × Option PyErr :=
  (teardown_method driver, match body with | .ok _ => none | .error e => some e)

/-! Auxiliary predicates used by the theorems below. -/

/-- Truth of an `Except` computation succeeding. -/
def exOk {α : Type} : Except PyErr α → Bool
  | .ok _ => true
  | .error _ => false

/-- The environment's Android numeric overrides and worker id are
well formed, so the Android build's parses cannot raise. -/
def androidEnvWellFormed (e : Env) : Bool :=
  (pyInt (e.ANDROID_INSTALL_TIMEOUT_MS.getD "300000")).isSome
  && (pyInt (e.UIA2_INSTALL_TIMEOUT_MS.getD "300000")).isSome
  && (pyInt (e.UIA2_LAUNCH_TIMEOUT_MS.getD "300000")).isSome
  && (pyInt (e.ADB_EXEC_TIMEOUT_MS.getD "300000")).isSome
  && exOk (worker_num e)

/-- The environment's iOS numeric overrides are well formed, so the
iOS build's parses cannot raise. -/
def iosEnvWellFormed (e : Env) : Bool :=
  (pyInt (e.WDA_LAUNCH_TIMEOUT_MS.getD "180000")).isSome
  && (pyInt (e.WDA_CONNECTION_TIMEOUT_MS.getD "180000")).isSome
  && (pyInt (e.WDA_STARTUP_RETRIES.getD "2")).isSome
  && (pyInt (e.WDA_STARTUP_RETRY_INTERVAL_MS.getD "5000")).isSome
  && (pyInt (e.SIMULATOR_STARTUP_TIMEOUT_MS.getD "300000")).isSome

/-- All numeric overrides and the worker id are well formed. -/
def envWellFormed (e : Env) : Bool :=
  androidEnvWellFormed e && iosEnvWellFormed e

/-- True when `SYSTEM_PORT_OFFSET` is unset or fails the `isdigit`
guard, i.e. when `_get_system_port` takes its seed-and-scan branch. -/
def offsetAbsentOrInvalid (e : Env) : Bool :=
  match e.SYSTEM_PORT_OFFSET with
  | some off => !pyIsDigit off
  | none => true

/-- Seed of the port scan for worker number `wn` and process id `pid`. -/
def portSeed (wn : Int) (pid : Nat) : Int :=
  base_port + wn + ((pid % 100 : Nat) : Int)

/-! Helper lemmas. -/

theorem choose_locator_loop_mem {probe : Loc → ProbeResult} :
    ∀ {ls : List Loc} {l : Loc}, choose_locator_loop probe ls = some l → l ∈ ls := by
  intro ls
  induction ls with
  | nil => intro l h; simp [choose_locator_loop] at h
  | cons x rest ih =>
    intro l h
    unfold choose_locator_loop at h
    cases hp : probe x with
    | present => rw [hp] at h; simp at h; simp [h]
    | absent => rw [hp] at h; simp at h; exact List.mem_cons_of_mem _ (ih h)
    | raised => rw [hp] at h; simp at h; exact List.mem_cons_of_mem _ (ih h)

theorem choose_locator_loop_none {probe : Loc → ProbeResult} :
    ∀ {ls : List Loc}, (∀ x ∈ ls, probe x ≠ .present) →
      choose_locator_loop probe ls = none := by
  intro ls
  induction ls with
  | nil => intro _; rfl
  | cons x rest ih =>
    intro h
    unfold choose_locator_loop
    cases hp : probe x with
    | present => exact absurd hp (h x (List.mem_cons_self x rest))
    | absent => exact ih fun y hy => h y (List.mem_cons_of_mem _ hy)
    | raised => exact ih fun y hy => h y (List.mem_cons_of_mem _ hy)

theorem digitsToNat_isSome :
    ∀ {l : List Char} {acc : Nat}, (∀ c ∈ l, c.isDigit = true) →
      (digitsToNat acc l).isSome := by
  intro l
  induction l with
  | nil => intro acc _; rfl
  | cons c t ih =>
    intro acc h
    have hc : c.isDigit = true := h c (List.mem_cons_self c t)
    unfold digitsToNat digitVal
    rw [hc]
    simp only [if_true]
    exact ih fun x hx => h x (List.mem_cons_of_mem _ hx)

theorem pyInt_of_isDigit {s : String} (h : pyIsDigit s = true) :
    ∃ k : Int, pyInt s = some k := by
  unfold pyIsDigit at h
  simp only [Bool.and_eq_true, Bool.not_eq_true', List.all_eq_true] at h
  obtain ⟨hne, hall⟩ := h
  unfold pyInt
  cases hd : s.data with
  | nil => rw [hd] at hne; simp at hne
  | cons c t =>
    rw [hd] at hall
    have hc : c.isDigit = true := hall c (List.mem_cons_self c t)
    have hsome : (digitsToNat 0 (c :: t)).isSome :=
      digitsToNat_isSome fun x hx => hall x hx
    have h1 : ¬(c = '-') := fun heq => by
      rw [heq] at hc; exact absurd hc (by decide)
    have h2 : ¬(c = '+') := fun heq => by
      rw [heq] at hc; exact absurd hc (by decide)
    simp only [pyIntChars, if_neg h1, if_neg h2]
    cases hdn : digitsToNat 0 (c :: t) with
    | none => rw [hdn] at hsome; simp at hsome
    | some n => exact ⟨n, rfl⟩

theorem scanPorts_some_iff {free : Int → Bool} :
    ∀ (n : Nat) (s p : Int),
      scanPorts free s n = some p ↔
        ∃ d : Nat, d < n ∧ p = s + d ∧ free (s + d) = true ∧
          ∀ j : Nat, j < d → free (s + j) = false := by
  intro n
  induction n with
  | zero =>
    intro s p
    simp [scanPorts]
  | succ n ih =>
    intro s p
    unfold scanPorts
    cases hf : free s with
    | true =>
      rw [if_pos rfl]
      constructor
      · intro h
        refine ⟨0, Nat.succ_pos n, ?_, ?_, ?_⟩
        · cases h; simp
        · simpa using hf
        · intro j hj; omega
      · rintro ⟨d, _, hp, _, hmin⟩
        have hd0 : d = 0 := by
          by_contra hne
          have := hmin 0 (Nat.pos_of_ne_zero hne)
          simp [hf] at this
        subst hd0
        simp at hp
        rw [hp]
    | false =>
      rw [if_neg (by simp)]
      rw [ih (s + 1) p]
      constructor
      · rintro ⟨d, hd, hp, hfree, hmin⟩
        refine ⟨d + 1, by omega, ?_, ?_, ?_⟩
        · rw [hp]; push_cast; ring
        · have : s + 1 + (d : Int) = s + ((d : Nat) + 1 : Nat) := by push_cast; ring
          rw [← this]; exact hfree
        · intro j hj
          cases j with
          | zero => simpa using hf
          | succ j' =>
            have : s + ((j' + 1 : Nat) : Int) = s + 1 + (j' : Int) := by push_cast; ring
            rw [this]
            exact hmin j' (by omega)
      · rintro ⟨d, hd, hp, hfree, hmin⟩
        cases d with
        | zero =>
          exfalso
          simp only [Nat.cast_zero, add_zero] at hfree
          rw [hf] at hfree
          cases hfree
        | succ d' =>
          refine ⟨d', by omega, ?_, ?_, ?_⟩
          · rw [hp]; push_cast; ring
          · have : s + ((d' + 1 : Nat) : Int) = s + 1 + (d' : Int) := by push_cast; ring
            rw [← this]; exact hfree
          · intro j hj
            have : s + 1 + (j : Int) = s + ((j + 1 : Nat) : Int) := by push_cast; ring
            rw [this]
            exact hmin (j + 1) (by omega)

theorem scanPorts_none_iff {free : Int → Bool} {n : Nat} {s : Int} :
    scanPorts free s n = none ↔ ∀ d : Nat, d < n → free (s + d) = false := by
  constructor
  · intro h d hd
    cases hf : free (s + d) with
    | false => rfl
    | true =>
      exfalso
      have hex : ∃ d0 : Nat, d0 < n ∧ free (s + d0) = true := ⟨d, hd, hf⟩
      have hP : ∃ d0 : Nat, d0 < n ∧ free (s + (d0 : Int)) = true := hex
      classical
      obtain ⟨d0, hd0, hf0⟩ := hP
      let P : Nat → Prop := fun j => j < n ∧ free (s + (j : Int)) = true
      have hPex : ∃ j, P j := ⟨d0, hd0, hf0⟩
      have hmin := Nat.find_spec hPex
      have hscan : scanPorts free s n = some (s + (Nat.find hPex : Int)) := by
        rw [scanPorts_some_iff]
        refine ⟨Nat.find hPex, hmin.1, rfl, hmin.2, ?_⟩
        intro j hj
        have := Nat.find_min hPex hj
        simp only [P, not_and] at this
        cases hfj : free (s + (j : Int)) with
        | false => rfl
        | true => exact absurd hfj (this (by omega))
      rw [h] at hscan
      cases hscan
  · intro h
    cases hs : scanPorts free s n with
    | none => rfl
    | some p =>
      exfalso
      rw [scanPorts_some_iff] at hs
      obtain ⟨d, hd, _, hfree, _⟩ := hs
      rw [h d hd] at hfree
      cases hfree

theorem map_map_eq {α β γ : Type} (x : Except PyErr α) (f : α → β)
    (g : α → γ) (h : β → γ) (H : ∀ a, g a = h (f a)) :
    x.map g = (x.map f).map h := by
  cases x with
  | ok a => simp [Except.map, H a]
  | error e => simp [Except.map]

theorem androidNumerics_ok_intro {e : Env} {pid : Nat} {free : Int → Bool}
    {a b c d sp : Int}
    (h1 : pyIntE (e.ANDROID_INSTALL_TIMEOUT_MS.getD "300000") = .ok a)
    (h2 : pyIntE (e.UIA2_INSTALL_TIMEOUT_MS.getD "300000") = .ok b)
    (h3 : pyIntE (e.UIA2_LAUNCH_TIMEOUT_MS.getD "300000") = .ok c)
    (h4 : pyIntE (e.ADB_EXEC_TIMEOUT_MS.getD "300000") = .ok d)
    (h5 : _get_system_port e pid free = .ok sp) :
    androidNumerics e pid free = .ok (a, b, c, d, sp) := by
  unfold androidNumerics
  rw [h1, h2, h3, h4, h5]

theorem androidNumerics_ok_elim {e : Env} {pid : Nat} {free : Int → Bool}
    {t : Int × Int × Int × Int × Int}
    (h : androidNumerics e pid free = .ok t) :
    pyIntE (e.ANDROID_INSTALL_TIMEOUT_MS.getD "300000") = .ok t.1
    ∧ pyIntE (e.UIA2_INSTALL_TIMEOUT_MS.getD "300000") = .ok t.2.1
    ∧ pyIntE (e.UIA2_LAUNCH_TIMEOUT_MS.getD "300000") = .ok t.2.2.1
    ∧ pyIntE (e.ADB_EXEC_TIMEOUT_MS.getD "300000") = .ok t.2.2.2.1
    ∧ _get_system_port e pid free = .ok t.2.2.2.2 := by
  unfold androidNumerics at h
  split at h
  · injection h with h'
    subst h'
    simp_all
  all_goals cases h

theorem iosNumerics_ok_intro {e : Env} {a b c d : Int}
    (h1 : pyIntE (e.WDA_LAUNCH_TIMEOUT_MS.getD "180000") = .ok a)
    (h2 : pyIntE (e.WDA_CONNECTION_TIMEOUT_MS.getD "180000") = .ok b)
    (h3 : pyIntE (e.WDA_STARTUP_RETRIES.getD "2") = .ok c)
    (h4 : pyIntE (e.WDA_STARTUP_RETRY_INTERVAL_MS.getD "5000") = .ok d) :
    iosNumerics e = .ok (a, b, c, d) := by
  unfold iosNumerics
  rw [h1, h2, h3, h4]

theorem iosNumerics_ok_elim {e : Env} {t : Int × Int × Int × Int}
    (h : iosNumerics e = .ok t) :
    pyIntE (e.WDA_LAUNCH_TIMEOUT_MS.getD "180000") = .ok t.1
    ∧ pyIntE (e.WDA_CONNECTION_TIMEOUT_MS.getD "180000") = .ok t.2.1
    ∧ pyIntE (e.WDA_STARTUP_RETRIES.getD "2") = .ok t.2.2.1
    ∧ pyIntE (e.WDA_STARTUP_RETRY_INTERVAL_MS.getD "5000") = .ok t.2.2.2 := by
  unfold iosNumerics at h
  split at h
  · injection h with h'
    subst h'
    simp_all
  all_goals cases h

theorem pyIntE_ok_of_isSome {s : String} (h : (pyInt s).isSome = true) :
    ∃ k, pyIntE s = .ok k := by
  unfold pyIntE
  cases hp : pyInt s with
  | none => rw [hp] at h; simp at h
  | some k => exact ⟨k, rfl⟩

theorem worker_num_ok_of_exOk {e : Env} (h : exOk (worker_num e) = true) :
    ∃ wn, worker_num e = .ok wn := by
  cases hw : worker_num e with
  | ok wn => exact ⟨wn, rfl⟩
  | error er => rw [hw] at h; simp [exOk] at h

theorem _get_system_port_scan_eq {e : Env} {pid : Nat} {free : Int → Bool}
    {wn : Int} (hw : worker_num e = .ok wn) :
    _get_system_port_scan e pid free =
      scanResultToPort
        (scanPorts free (base_port + wn + ((pid % 100 : Nat) : Int)) 200) := by
  unfold _get_system_port_scan
  rw [hw]

theorem _get_system_port_eq_offset {e : Env} {pid : Nat} {free : Int → Bool}
    {off : String} (ho : e.SYSTEM_PORT_OFFSET = some off) :
    _get_system_port e pid free = offsetPort off e pid free := by
  unfold _get_system_port
  rw [ho]

theorem _get_system_port_eq_scan {e : Env} {pid : Nat} {free : Int → Bool}
    (h : offsetAbsentOrInvalid e = true) :
    _get_system_port e pid free = _get_system_port_scan e pid free := by
  unfold offsetAbsentOrInvalid at h
  unfold _get_system_port
  cases ho : e.SYSTEM_PORT_OFFSET with
  | none => rfl
  | some off =>
    rw [ho] at h
    simp only [Bool.not_eq_true'] at h
    show offsetPort off e pid free = _get_system_port_scan e pid free
    unfold offsetPort
    rw [if_neg (by simp [h])]

theorem _get_system_port_scan_ok {e : Env} {pid : Nat} {free : Int → Bool}
    {wn : Int} (hw : worker_num e = .ok wn) :
    ∃ p, _get_system_port_scan e pid free = .ok p := by
  rw [_get_system_port_scan_eq hw]
  cases hs : scanPorts free (base_port + wn + ((pid % 100 : Nat) : Int)) 200 with
  | some p => exact ⟨p, rfl⟩
  | none => exact ⟨base_port, rfl⟩

theorem _get_system_port_ok {e : Env} {pid : Nat} {free : Int → Bool}
    (h : exOk (worker_num e) = true) :
    ∃ p, _get_system_port e pid free = .ok p := by
  obtain ⟨wn, hw⟩ := worker_num_ok_of_exOk h
  have hscan := @_get_system_port_scan_ok e pid free wn hw
  unfold _get_system_port
  cases ho : e.SYSTEM_PORT_OFFSET with
  | none => exact hscan
  | some off =>
    show ∃ p, offsetPort off e pid free = .ok p
    unfold offsetPort
    cases hdig : pyIsDigit off with
    | false => rw [if_neg (by simp)]; exact hscan
    | true =>
      rw [if_pos rfl]
      obtain ⟨k, hk⟩ := pyInt_of_isDigit hdig
      rw [hk]
      exact ⟨base_port + k, rfl⟩

theorem get_android_capabilities_ok {cfg : AppiumConfig} {e : Env}
    {pid : Nat} {free : Int → Bool} (h : androidEnvWellFormed e = true) :
    ∃ c, get_android_capabilities cfg e pid free = .ok c := by
  unfold androidEnvWellFormed at h
  simp only [Bool.and_eq_true] at h
  obtain ⟨⟨⟨⟨h1, h2⟩, h3⟩, h4⟩, h5⟩ := h
  obtain ⟨a, ha⟩ := pyIntE_ok_of_isSome h1
  obtain ⟨b, hb⟩ := pyIntE_ok_of_isSome h2
  obtain ⟨c, hc⟩ := pyIntE_ok_of_isSome h3
  obtain ⟨d, hd⟩ := pyIntE_ok_of_isSome h4
  obtain ⟨sp, hsp⟩ := @_get_system_port_ok e pid free h5
  refine ⟨android_caps_record cfg e (a, b, c, d, sp), ?_⟩
  unfold get_android_capabilities
  rw [androidNumerics_ok_intro ha hb hc hd hsp]
  rfl

theorem get_ios_capabilities_ok {cfg : AppiumConfig} {e : Env}
    (h : iosEnvWellFormed e = true) :
    ∃ c, get_ios_capabilities cfg e = .ok c := by
  unfold iosEnvWellFormed at h
  simp only [Bool.and_eq_true] at h
  obtain ⟨⟨⟨⟨h1, h2⟩, h3⟩, h4⟩, h5⟩ := h
  obtain ⟨a, ha⟩ := pyIntE_ok_of_isSome h1
  obtain ⟨b, hb⟩ := pyIntE_ok_of_isSome h2
  obtain ⟨c, hc⟩ := pyIntE_ok_of_isSome h3
  obtain ⟨d, hd⟩ := pyIntE_ok_of_isSome h4
  obtain ⟨st, hst⟩ := pyIntE_ok_of_isSome h5
  have hred : get_ios_capabilities cfg e = ios_caps_with_sim cfg e (a, b, c, d) := by
    unfold get_ios_capabilities
    rw [iosNumerics_ok_intro ha hb hc hd]
  rw [hred]
  unfold ios_caps_with_sim
  cases hcond : (pyContains "Simulator"
      (ios_caps_record cfg e (a, b, c, d)).deviceName || cfg.environment == "ci") with
  | true =>
    rw [if_pos rfl, hst]
    exact ⟨_, rfl⟩
  | false =>
    rw [if_neg (by simp)]
    exact ⟨_, rfl⟩

theorem scanPorts_finds_least {free : Int → Bool} {n : Nat} {s : Int}
    (hex : ∃ d : Nat, d < n ∧ free (s + d) = true) :
    ∃ d : Nat, d < n ∧ free (s + d) = true
      ∧ (∀ j : Nat, j < d → free (s + j) = false)
      ∧ scanPorts free s n = some (s + d) := by
  classical
  obtain ⟨d0, hd0, hf0⟩ := hex
  have hPex : ∃ j : Nat, j < n ∧ free (s + (j : Int)) = true := ⟨d0, hd0, hf0⟩
  have hspec := Nat.find_spec hPex
  refine ⟨Nat.find hPex, hspec.1, hspec.2, ?_, ?_⟩
  · intro j hj
    have hmin := Nat.find_min hPex hj
    simp only [not_and] at hmin
    cases hfj : free (s + (j : Int)) with
    | false => rfl
    | true => exact absurd hfj (hmin (by omega))
  · rw [scanPorts_some_iff]
    refine ⟨Nat.find hPex, hspec.1, rfl, hspec.2, ?_⟩
    intro j hj
    have hmin := Nat.find_min hPex hj
    simp only [not_and] at hmin
    cases hfj : free (s + (j : Int)) with
    | false => rfl
    | true => exact absurd hfj (hmin (by omega))

theorem pyIntE_of_pyInt {s : String} {n : Int} (h : pyInt s = some n) :
    pyIntE s = .ok n := by
  unfold pyIntE
  rw [h]

/-! Theorems for the individual claims. -/

/-- C9: for every non-empty locator chain, `choose_locator` returns one
of the chain's locators and never raises — in particular, when every
probe reports absence or raises, the first locator is returned as the
fallback — while on an empty chain it raises `IndexError` (from the
`locators[0]` fallback), not a not-found error. -/
theorem choose_locator_total_on_nonempty (probe : Loc → ProbeResult)
    (l : Loc) (rest : List Loc) :
    (∃ l', l' ∈ l :: rest ∧ choose_locator probe (l :: rest) = .ok l')
    ∧ ((∀ x ∈ l :: rest, probe x ≠ .present) →
        choose_locator probe (l :: rest) = .ok l)
    ∧ choose_locator probe [] = .error .indexError := by
  refine ⟨?_, ?_, rfl⟩
  · cases hl : choose_locator_loop probe (l :: rest) with
    | some l' =>
      exact ⟨l', choose_locator_loop_mem hl, by unfold choose_locator; rw [hl]⟩
    | none =>
      exact ⟨l, List.mem_cons_self l rest, by unfold choose_locator; rw [hl]⟩
  · intro h
    have hn := @choose_locator_loop_none probe (l :: rest) h
    unfold choose_locator
    rw [hn]

/-- Witness for C9 at a concrete chain whose probes all raise: the
first locator comes back and nothing is raised. -/
theorem choose_locator_total_on_nonempty_witness :
    choose_locator (fun _ => .raised)
        [("accessibility id", "login_submit"), ("xpath", "//SignIn")]
      = .ok ("accessibility id", "login_submit") :=
  (choose_locator_total_on_nonempty (fun _ => .raised)
    ("accessibility id", "login_submit") [("xpath", "//SignIn")]).2.1 (by decide)

/-- C6: when the first descriptor of a chain resolves, the resolver
returns its result immediately and never attempts any later descriptor:
for `choose_locator`, a chain whose head probes present yields the head
with the head as the only probed locator; for
`find_element_flutter_first`, a resolving Flutter key yields the
Flutter element with the native fallback never attempted. -/
theorem first_success_short_circuits (probe : Loc → ProbeResult)
    (l1 : Loc) (rest : List Loc) (pg : PageDriver) (key : String)
    (fb : Loc) (el : Elem) :
    (probe l1 = .present →
      choose_locator probe (l1 :: rest) = .ok l1
      ∧ choose_locator_attempts probe (l1 :: rest) = [l1])
    ∧ (pg.flutter_available = true → pg.resolve_flutter key = some el →
      find_element_flutter_first pg key fb = .ok el
      ∧ find_flutter_first_attempts pg key fb = [.flutterKey key]) := by
  constructor
  · intro h
    have hloop : choose_locator_loop probe (l1 :: rest) = some l1 := by
      unfold choose_locator_loop
      rw [h]
    constructor
    · unfold choose_locator
      rw [hloop]
    · unfold choose_locator_attempts
      rw [h]
  · intro hav hres
    constructor
    · unfold find_element_flutter_first
      rw [hav, if_pos rfl, hres]
    · unfold find_flutter_first_attempts
      rw [hav, if_pos rfl, hres]

/-- Witness for C6 on a concrete two-descriptor chain and a concrete
resolving Flutter key. -/
theorem first_success_short_circuits_witness :
    (choose_locator (fun _ => .present) [("flutter", "k"), ("xpath", "//y")]
        = .ok ("flutter", "k")
      ∧ choose_locator_attempts (fun _ => .present)
          [("flutter", "k"), ("xpath", "//y")] = [("flutter", "k")])
    ∧ (find_element_flutter_first ⟨true, fun _ => some 7, fun _ => none⟩
          "login_submit" ("xpath", "//y") = .ok 7
      ∧ find_flutter_first_attempts ⟨true, fun _ => some 7, fun _ => none⟩
          "login_submit" ("xpath", "//y") = [.flutterKey "login_submit"]) :=
  ⟨(first_success_short_circuits (fun _ => .present) ("flutter", "k")
      [("xpath", "//y")] ⟨true, fun _ => some 7, fun _ => none⟩
      "login_submit" ("xpath", "//y") 7).1 rfl,
   (first_success_short_circuits (fun _ => .present) ("flutter", "k")
      [("xpath", "//y")] ⟨true, fun _ => some 7, fun _ => none⟩
      "login_submit" ("xpath", "//y") 7).2 rfl rfl⟩

/-- C1 (amended): when no descriptor of the chain resolves within its
timeout, `find_element_flutter_first` raises the `TimeoutException` of
the final fallback wait, whose message is the empty string — it does
not carry the list of attempted descriptors — and
`is_element_present_flutter_first` returns false without raising. -/
theorem find_exhaustion_raises_bare_timeout (pg : PageDriver)
    (key : String) (fb : Loc)
    (hf : pg.flutter_available = false ∨ pg.resolve_flutter key = none)
    (hn : pg.resolve_locator fb = none) :
    find_element_flutter_first pg key fb = .error (.timeoutError "")
    ∧ is_element_present_flutter_first pg key fb = false := by
  have hfind : find_element_flutter_first pg key fb = .error (.timeoutError "") := by
    unfold find_element_flutter_first
    cases hav : pg.flutter_available with
    | false =>
      rw [if_neg (by simp)]
      unfold wait_for_element
      rw [hn]
    | true =>
      rw [if_pos rfl]
      rcases hf with hf | hf
      · rw [hf] at hav; cases hav
      · rw [hf]
        unfold wait_for_element
        rw [hn]
  refine ⟨hfind, ?_⟩
  unfold is_element_present_flutter_first
  rw [hfind]

/-- Witness for the amended C1 at a concrete driver where nothing
resolves. -/
theorem find_exhaustion_raises_bare_timeout_witness :
    find_element_flutter_first ⟨false, fun _ => none, fun _ => none⟩
        "login_submit" ("xpath", "//SignIn") = .error (.timeoutError "")
    ∧ is_element_present_flutter_first ⟨false, fun _ => none, fun _ => none⟩
        "login_submit" ("xpath", "//SignIn") = false :=
  find_exhaustion_raises_bare_timeout ⟨false, fun _ => none, fun _ => none⟩
    "login_submit" ("xpath", "//SignIn") (Or.inl rfl) rfl

/-- C1 counterexample: at a concrete driver where neither the Flutter
key nor the native fallback resolves, the raised error is a
`TimeoutException` with empty message, and that message does not carry
the attempted-descriptor list (the claim asserts the not-found error
carries the full list of attempted descriptors). -/
theorem find_exhaustion_error_carries_no_descriptors :
    find_element_flutter_first ⟨true, fun _ => none, fun _ => none⟩
        "login_submit" ("xpath", "//SignIn") = .error (.timeoutError "")
    ∧ find_flutter_first_attempts ⟨true, fun _ => none, fun _ => none⟩
        "login_submit" ("xpath", "//SignIn")
        = [.flutterKey "login_submit", .native ("xpath", "//SignIn")]
    ∧ msgCarries ""
        (find_flutter_first_attempts ⟨true, fun _ => none, fun _ => none⟩
          "login_submit" ("xpath", "//SignIn")) = false := by
  decide

/-- C7: on every exit path of a test method — the body raising
included — teardown runs: the session handle always ends cleared, no
teardown error ever propagates, `quit` is invoked exactly once whenever
a driver was held (and not at all otherwise), the test's own failure is
reported unchanged, and a failing `quit` is logged. -/
theorem teardown_always_clears_and_never_raises
    (driver : Option DriverHandle) (body : Except PyErr Unit) :
    (run_test_method driver body).1.driver = none
    ∧ (run_test_method driver body).1.raised = none
    ∧ (run_test_method driver body).1.quit_calls
        = (if driver.isSome then 1 else 0)
    ∧ (∀ er, body = .error er → (run_test_method driver body).2 = some er)
    ∧ (∀ d er, driver = some d → d.quit_result = .error er →
        (run_test_method driver body).1.error_logs = [quitErrorLog er]) := by
  cases driver with
  | none =>
    refine ⟨rfl, rfl, rfl, ?_, ?_⟩
    · intro er h
      subst h
      rfl
    · intro d er h
      cases h
  | some d =>
    have h1 : (quit_and_clear d).driver = none := by
      unfold quit_and_clear
      cases hq : d.quit_result <;> rfl
    have h2 : (quit_and_clear d).raised = none := by
      unfold quit_and_clear
      cases hq : d.quit_result <;> rfl
    have h3 : (quit_and_clear d).quit_calls = 1 := by
      unfold quit_and_clear
      cases hq : d.quit_result <;> rfl
    refine ⟨h1, h2, h3, ?_, ?_⟩
    · intro er h
      subst h
      rfl
    · intro d' er h hq
      injection h with h
      subst h
      simp only [run_test_method, teardown_method, quit_and_clear, hq]

/-- Witness for C7 at a concrete held driver whose quit raises and a
concrete failing test body. -/
theorem teardown_always_clears_and_never_raises_witness :
    (run_test_method (some ⟨.error (.webDriverError "socket closed")⟩)
        (.error .valueError)).1.driver = none
    ∧ (run_test_method (some ⟨.error (.webDriverError "socket closed")⟩)
        (.error .valueError)).1.raised = none
    ∧ (run_test_method (some ⟨.error (.webDriverError "socket closed")⟩)
        (.error .valueError)).1.quit_calls = 1
    ∧ (run_test_method (some ⟨.error (.webDriverError "socket closed")⟩)
        (.error .valueError)).2 = some .valueError
    ∧ (run_test_method (some ⟨.error (.webDriverError "socket closed")⟩)
        (.error .valueError)).1.error_logs
        = [quitErrorLog (.webDriverError "socket closed")] := by
  have h := teardown_always_clears_and_never_raises
    (some ⟨.error (.webDriverError "socket closed")⟩) (.error .valueError)
  exact ⟨h.1, h.2.1, h.2.2.1, h.2.2.2.1 _ rfl, h.2.2.2.2 _ _ rfl rfl⟩

/-- C3 (amended): every port produced by the forward scan of
`_get_system_port` was observed bindable (the bind-and-release probe
succeeded on it) immediately prior to being returned; the
explicit-offset path and the scan-exhaustion fallback, by contrast,
return their port without any probe. -/
theorem scan_path_ports_probed (e : Env) (pid : Nat) (free : Int → Bool)
    (wn p : Int)
    (hoff : offsetAbsentOrInvalid e = true)
    (hw : worker_num e = .ok wn)
    (hs : scanPorts free (base_port + wn + ((pid % 100 : Nat) : Int)) 200
      = some p) :
    _get_system_port e pid free = .ok p ∧ free p = true := by
  constructor
  · rw [_get_system_port_eq_scan hoff, _get_system_port_scan_eq hw, hs]
    rfl
  · obtain ⟨d, _, hp, hfree, _⟩ := (scanPorts_some_iff 200 _ p).1 hs
    rw [hp]
    exact hfree

/-- Witness for the amended C3: with only port 8205 bindable, the scan
returns 8205 and the probe had succeeded on it. -/
theorem scan_path_ports_probed_witness :
    _get_system_port emptyEnv 0 (fun q => q == 8205) = .ok 8205
    ∧ (fun q => q == 8205) 8205 = true :=
  scan_path_ports_probed emptyEnv 0 (fun q => q == 8205) 0 8205
    (by decide) (by decide) (by decide)

/-- C3 counterexample: with a probe that reports every port unbindable,
the explicit-offset path returns 8207 and the scan-exhaustion fallback
returns 8200, although neither port was observed bindable — refuting
the claim that every returned port passed the probe on every return
path. -/
theorem offset_and_fallback_ports_not_probed :
    _get_system_port { SYSTEM_PORT_OFFSET := some "7" } 0 (fun _ => false)
      = .ok 8207
    ∧ _get_system_port emptyEnv 0 (fun _ => false) = .ok 8200
    ∧ (fun _ => false : Int → Bool) 8207 = false
    ∧ (fun _ => false : Int → Bool) 8200 = false := by
  decide

/-- C8 (amended): the port allocator follows the specified algorithm —
an `isdigit`-valued offset override yields `base_port + offset`
unconditionally; otherwise it scans 200 candidates forward from the
worker/pid seed, returning the first bindable one, and falls back to
the unscanned base port when none is bindable — but it is not
raise-free: a `PYTEST_XDIST_WORKER_ID` containing `gw` whose remainder
after removing `gw` is not an integer makes the worker-number parse
raise `ValueError`. -/
theorem port_allocator_algorithm (e : Env) (pid : Nat) (free : Int → Bool) :
    (∀ off k, e.SYSTEM_PORT_OFFSET = some off → pyIsDigit off = true →
      pyInt off = some k → _get_system_port e pid free = .ok (base_port + k))
    ∧ (∀ wn, offsetAbsentOrInvalid e = true → worker_num e = .ok wn →
        ((∃ d : Nat, d < 200 ∧ free (portSeed wn pid + d) = true) →
          ∃ p, _get_system_port e pid free = .ok p ∧ free p = true
            ∧ ∃ d : Nat, d < 200 ∧ p = portSeed wn pid + d
              ∧ ∀ j : Nat, j < d → free (portSeed wn pid + j) = false)
        ∧ ((∀ d : Nat, d < 200 → free (portSeed wn pid + d) = false) →
          _get_system_port e pid free = .ok base_port)) := by
  refine ⟨?_, ?_⟩
  · intro off k ho hdig hk
    rw [_get_system_port_eq_offset ho]
    unfold offsetPort
    rw [if_pos hdig, hk]
  · intro wn hoff hw
    have hseed : portSeed wn pid = base_port + wn + ((pid % 100 : Nat) : Int) := rfl
    constructor
    · intro hex
      rw [hseed] at hex
      obtain ⟨d, hd, hfree, hmin, hscan⟩ := scanPorts_finds_least hex
      refine ⟨base_port + wn + ((pid % 100 : Nat) : Int) + d, ?_, hfree, d, hd, by rw [hseed], ?_⟩
      · rw [_get_system_port_eq_scan hoff, _get_system_port_scan_eq hw, hscan]
        rfl
      · intro j hj
        rw [hseed]
        exact hmin j hj
    · intro hnone
      rw [hseed] at hnone
      have hscan : scanPorts free (base_port + wn + ((pid % 100 : Nat) : Int)) 200 = none :=
        scanPorts_none_iff.2 hnone
      rw [_get_system_port_eq_scan hoff, _get_system_port_scan_eq hw, hscan]
      rfl

set_option maxRecDepth 4000 in
/-- Witness for the amended C8 exercising all three return paths at
concrete inputs. -/
theorem port_allocator_algorithm_witness :
    _get_system_port { SYSTEM_PORT_OFFSET := some "7" } 0 (fun _ => false)
      = .ok (base_port + 7)
    ∧ _get_system_port emptyEnv 0 (fun _ => false) = .ok base_port
    ∧ (∃ p, _get_system_port emptyEnv 3 (fun q => q == 8205) = .ok p
        ∧ (fun q => q == 8205) p = true
        ∧ ∃ d : Nat, d < 200 ∧ p = portSeed 0 3 + d
          ∧ ∀ j : Nat, j < d → (fun q => q == 8205) (portSeed 0 3 + j) = false) :=
  ⟨(port_allocator_algorithm { SYSTEM_PORT_OFFSET := some "7" } 0
      (fun _ => false)).1 "7" 7 rfl (by decide) (by decide),
   ((port_allocator_algorithm emptyEnv 0 (fun _ => false)).2 0
      (by decide) (by decide)).2 (by decide),
   ((port_allocator_algorithm emptyEnv 3 (fun q => q == 8205)).2 0
      (by decide) (by decide)).1 ⟨2, by decide, by decide⟩⟩

/-- C8 counterexample: the allocator is not raise-free — with
`PYTEST_XDIST_WORKER_ID=gw`, `int(worker_id.replace("gw", ""))` is
`int("")`, which raises `ValueError`. -/
theorem port_allocator_raises_on_bare_gw_worker :
    _get_system_port { PYTEST_XDIST_WORKER_ID := some "gw" } 0 (fun _ => true)
      = .error .valueError := by
  decide

/-- C4 (amended): profile building is total for every platform and
environment pair whenever the numeric override variables parse as
integers and the worker id is well formed; it is deterministic only
once the process id and the port-availability state are fixed along
with the environment snapshot (the embedding being a pure function of
those three inputs). -/
theorem build_profile_total (platform envName : String) (e : Env)
    (pid : Nat) (free : Int → Bool) (h : envWellFormed e = true) :
    ∃ c, build_profile platform envName e pid free = .ok c := by
  unfold envWellFormed at h
  simp only [Bool.and_eq_true] at h
  obtain ⟨hA, hI⟩ := h
  unfold build_profile get_capabilities
  cases hp : ((mkAppiumConfig platform envName e).platform_name == "android") with
  | true =>
    rw [if_pos rfl]
    obtain ⟨c, hc⟩ := @get_android_capabilities_ok
      (mkAppiumConfig platform envName e) e pid free hA
    rw [hc]
    exact ⟨_, rfl⟩
  | false =>
    rw [if_neg (by simp)]
    obtain ⟨c, hc⟩ := @get_ios_capabilities_ok
      (mkAppiumConfig platform envName e) e hI
    rw [hc]
    exact ⟨_, rfl⟩

/-- Witness for the amended C4 at the empty environment snapshot. -/
theorem build_profile_total_witness :
    envWellFormed emptyEnv = true
    ∧ ∃ c, build_profile "android" "local" emptyEnv 0 (fun _ => true) = .ok c :=
  ⟨by decide,
   build_profile_total "android" "local" emptyEnv 0 (fun _ => true) (by decide)⟩

/-- C4 counterexample: under one and the same environment-variable
snapshot, two builds in processes with different pids produce different
profiles (the allocator seeds its scan from `pid % 100`), refuting
determinism as a function of the snapshot alone. -/
theorem build_profile_differs_across_pids :
    build_profile "android" "local" emptyEnv 0 (fun _ => true)
      ≠ build_profile "android" "local" emptyEnv 1 (fun _ => true) := by
  decide

/-- C5 (amended): on Android, a `ci` build has `noReset=False`,
`fullReset=True` and `isHeadless=True`, and a `local` build with no
overrides has `noReset=True`, `fullReset=False` and no headless key;
on iOS, every build has `noReset=False` and `fullReset=True` regardless
of environment (and no headless key exists — `ci` adds `isSimulator`
instead). -/
theorem reset_policy_by_platform :
    (∀ (e : Env) (pid : Nat) (free : Int → Bool) (c : AndroidCaps),
      get_android_capabilities (mkAppiumConfig "android" "ci" e) e pid free
        = .ok c →
      c.noReset = false ∧ c.fullReset = true ∧ c.isHeadless = some true)
    ∧ (∀ (pid : Nat) (free : Int → Bool) (c : AndroidCaps),
      get_android_capabilities (mkAppiumConfig "android" "local" emptyEnv)
        emptyEnv pid free = .ok c →
      c.noReset = true ∧ c.fullReset = false ∧ c.isHeadless = none)
    ∧ (∀ (envName : String) (e : Env) (c : IOSCaps),
      get_ios_capabilities (mkAppiumConfig "ios" envName e) e = .ok c →
      c.noReset = false ∧ c.fullReset = true) := by
  refine ⟨?_, ?_, ?_⟩
  · intro e pid free c h
    unfold get_android_capabilities at h
    cases hn : androidNumerics e pid free with
    | error er => rw [hn] at h; simp [Except.map] at h
    | ok t =>
      rw [hn] at h
      simp only [Except.map] at h
      injection h with h
      subst h
      exact ⟨rfl, rfl, rfl⟩
  · intro pid free c h
    unfold get_android_capabilities at h
    cases hn : androidNumerics emptyEnv pid free with
    | error er => rw [hn] at h; simp [Except.map] at h
    | ok t =>
      rw [hn] at h
      simp only [Except.map] at h
      injection h with h
      subst h
      exact ⟨rfl, rfl, rfl⟩
  · intro envName e c h
    cases hn : iosNumerics e with
    | error er =>
      unfold get_ios_capabilities at h
      rw [hn] at h
      simp at h
    | ok nums =>
      have hred : get_ios_capabilities (mkAppiumConfig "ios" envName e) e
          = ios_caps_with_sim (mkAppiumConfig "ios" envName e) e nums := by
        unfold get_ios_capabilities
        rw [hn]
      rw [hred] at h
      unfold ios_caps_with_sim at h
      split at h
      · split at h
        · injection h with h
          subst h
          exact ⟨rfl, rfl⟩
        · cases h
      · injection h with h
        subst h
        exact ⟨rfl, rfl⟩

/-- Witness for the amended C5 at concrete builds on both platforms
and both environments. -/
theorem reset_policy_by_platform_witness :
    ((android_caps_record (mkAppiumConfig "android" "ci" emptyEnv) emptyEnv
        (300000, 300000, 300000, 300000, 8200)).noReset = false
      ∧ (android_caps_record (mkAppiumConfig "android" "ci" emptyEnv) emptyEnv
          (300000, 300000, 300000, 300000, 8200)).fullReset = true
      ∧ (android_caps_record (mkAppiumConfig "android" "ci" emptyEnv) emptyEnv
          (300000, 300000, 300000, 300000, 8200)).isHeadless = some true)
    ∧ ((android_caps_record (mkAppiumConfig "android" "local" emptyEnv) emptyEnv
        (300000, 300000, 300000, 300000, 8200)).noReset = true
      ∧ (android_caps_record (mkAppiumConfig "android" "local" emptyEnv) emptyEnv
          (300000, 300000, 300000, 300000, 8200)).fullReset = false
      ∧ (android_caps_record (mkAppiumConfig "android" "local" emptyEnv) emptyEnv
          (300000, 300000, 300000, 300000, 8200)).isHeadless = none)
    ∧ ((ios_caps_record (mkAppiumConfig "ios" "local" emptyEnv) emptyEnv
        (180000, 180000, 2, 5000)).noReset = false
      ∧ (ios_caps_record (mkAppiumConfig "ios" "local" emptyEnv) emptyEnv
          (180000, 180000, 2, 5000)).fullReset = true) :=
  ⟨reset_policy_by_platform.1 emptyEnv 0 (fun _ => true) _ (by decide),
   reset_policy_by_platform.2.1 0 (fun _ => true) _ (by decide),
   reset_policy_by_platform.2.2 "local" emptyEnv _ (by decide)⟩

/-- C5 counterexample: an iOS profile built for the `local` environment
has `noReset=False` and `fullReset=True`, not the claimed
`{noReset: true, fullReset: false}`. -/
theorem ios_local_reset_policy_fixed :
    (get_ios_capabilities (mkAppiumConfig "ios" "local" emptyEnv) emptyEnv).map
        (fun c => (c.noReset, c.fullReset))
      = .ok (false, true) := by
  decide

/-- C10: every platform name whose lowercasing differs from `android`
is silently treated as iOS — the app artifact path is the iOS default
(absent an `APP_PATH` override) and the built profile carries the iOS
capability set; no error is raised for the unrecognized name (the build
succeeds whenever the iOS numeric overrides are well formed). -/
theorem nonandroid_platform_builds_ios (platform envName : String)
    (e : Env) (pid : Nat) (free : Int → Bool)
    (hp : (pyLower platform == "android") = false)
    (ha : e.APP_PATH = none)
    (hw : iosEnvWellFormed e = true) :
    (mkAppiumConfig platform envName e).app_build_path = .iosDefaultApp
    ∧ ∃ ic, build_profile platform envName e pid free
        = .ok { orientation := "PORTRAIT", unicodeKeyboard := true,
                resetKeyboard := true, clearSystemFiles := true,
                platform := .ios ic } := by
  constructor
  · show _get_app_build_path e (pyLower platform) = .iosDefaultApp
    unfold _get_app_build_path
    rw [ha]
    rw [if_neg (by decide)]
    rw [hp]
    rw [if_neg (by simp)]
  · obtain ⟨ic, hic⟩ := @get_ios_capabilities_ok
      (mkAppiumConfig platform envName e) e hw
    refine ⟨ic, ?_⟩
    unfold build_profile get_capabilities
    rw [show ((mkAppiumConfig platform envName e).platform_name == "android")
        = false from hp]
    rw [if_neg (by simp)]
    rw [hic]
    rfl

/-- Witness for C10 at the unrecognized platform name `Windows`. -/
theorem nonandroid_platform_builds_ios_witness :
    (mkAppiumConfig "Windows" "local" emptyEnv).app_build_path = .iosDefaultApp
    ∧ ∃ ic, build_profile "Windows" "local" emptyEnv 0 (fun _ => true)
        = .ok { orientation := "PORTRAIT", unicodeKeyboard := true,
                resetKeyboard := true, clearSystemFiles := true,
                platform := .ios ic } :=
  nonandroid_platform_builds_ios "Windows" "local" emptyEnv 0 (fun _ => true)
    (by decide) rfl (by decide)

theorem gac_congr {cfg1 cfg2 : AppiumConfig} {e1 e2 : Env} {pid : Nat}
    {free : Int → Bool} (f : AndroidCaps → AndroidCaps)
    (hnum : androidNumerics e1 pid free = androidNumerics e2 pid free)
    (hrec : ∀ t, android_caps_record cfg1 e1 t
      = f (android_caps_record cfg2 e2 t)) :
    get_android_capabilities cfg1 e1 pid free
      = (get_android_capabilities cfg2 e2 pid free).map f := by
  unfold get_android_capabilities
  rw [hnum]
  cases androidNumerics e2 pid free <;> simp [Except.map, hrec]

theorem gac_congr_eq {cfg1 cfg2 : AppiumConfig} {e1 e2 : Env} {pid : Nat}
    {free : Int → Bool}
    (hnum : androidNumerics e1 pid free = androidNumerics e2 pid free)
    (hrec : ∀ t, android_caps_record cfg1 e1 t
      = android_caps_record cfg2 e2 t) :
    get_android_capabilities cfg1 e1 pid free
      = get_android_capabilities cfg2 e2 pid free := by
  unfold get_android_capabilities
  rw [hnum]
  cases androidNumerics e2 pid free <;> simp [Except.map, hrec]

/-- C2 (amended): every recognized Android override variable changes
only its corresponding field(s) of the built profile, all other fields
being unchanged: each variable changes exactly its one field, except
that `ANDROID_DEVICE_NAME` also changes the `avd` field when
`ANDROID_AVD_NAME` is unset, and `ANDROID_NO_RESET` changes nothing
when the environment is `ci`; a numeric override changes its field
provided its value parses, and `SYSTEM_PORT_OFFSET` (when it passes
the digit guard) changes exactly `systemPort`. -/
theorem android_override_changes_only_its_fields
    (envName : String) (e : Env) (pid : Nat) (free : Int → Bool)
    (v : String) :
    (pyTruthy v = true →
      get_android_capabilities
          (mkAppiumConfig "android" envName {e with APP_PATH := some v})
          {e with APP_PATH := some v} pid free
        = (get_android_capabilities (mkAppiumConfig "android" envName e)
            e pid free).map (fun c => { c with app := .fromEnv v }))
    ∧ (get_android_capabilities
          (mkAppiumConfig "android" envName
            {e with ANDROID_AUTOMATION_NAME := some v})
          {e with ANDROID_AUTOMATION_NAME := some v} pid free
        = (get_android_capabilities (mkAppiumConfig "android" envName e)
            e pid free).map (fun c => { c with automationName := v }))
    ∧ (get_android_capabilities
          (mkAppiumConfig "android" envName
            {e with ANDROID_API_LEVEL := some v})
          {e with ANDROID_API_LEVEL := some v} pid free
        = (get_android_capabilities (mkAppiumConfig "android" envName e)
            e pid free).map (fun c => { c with platformVersion := v }))
    ∧ (get_android_capabilities
          (mkAppiumConfig "android" envName
            {e with ANDROID_APP_WAIT_ACTIVITY := some v})
          {e with ANDROID_APP_WAIT_ACTIVITY := some v} pid free
        = (get_android_capabilities (mkAppiumConfig "android" envName e)
            e pid free).map (fun c => { c with appWaitActivity := v }))
    ∧ (get_android_capabilities
          (mkAppiumConfig "android" envName
            {e with ANDROID_AVD_NAME := some v})
          {e with ANDROID_AVD_NAME := some v} pid free
        = (get_android_capabilities (mkAppiumConfig "android" envName e)
            e pid free).map (fun c => { c with avd := v }))
    ∧ (e.ANDROID_AVD_NAME = none →
      get_android_capabilities
          (mkAppiumConfig "android" envName
            {e with ANDROID_DEVICE_NAME := some v})
          {e with ANDROID_DEVICE_NAME := some v} pid free
        = (get_android_capabilities (mkAppiumConfig "android" envName e)
            e pid free).map (fun c => { c with deviceName := v, avd := v }))
    ∧ ((pyLower envName == "ci") = false →
      get_android_capabilities
          (mkAppiumConfig "android" envName
            {e with ANDROID_NO_RESET := some v})
          {e with ANDROID_NO_RESET := some v} pid free
        = (get_android_capabilities (mkAppiumConfig "android" envName e)
            e pid free).map (fun c => { c with noReset := (v == "1") }))
    ∧ ((pyLower envName == "ci") = true →
      get_android_capabilities
          (mkAppiumConfig "android" envName
            {e with ANDROID_NO_RESET := some v})
          {e with ANDROID_NO_RESET := some v} pid free
        = get_android_capabilities (mkAppiumConfig "android" envName e)
            e pid free)
    ∧ (∀ (n : Int) (c : AndroidCaps), pyInt v = some n →
      get_android_capabilities (mkAppiumConfig "android" envName e)
          e pid free = .ok c →
      get_android_capabilities
          (mkAppiumConfig "android" envName
            {e with ANDROID_INSTALL_TIMEOUT_MS := some v})
          {e with ANDROID_INSTALL_TIMEOUT_MS := some v} pid free
        = .ok { c with androidInstallTimeout := n })
    ∧ (∀ (n : Int) (c : AndroidCaps), pyInt v = some n →
      get_android_capabilities (mkAppiumConfig "android" envName e)
          e pid free = .ok c →
      get_android_capabilities
          (mkAppiumConfig "android" envName
            {e with UIA2_INSTALL_TIMEOUT_MS := some v})
          {e with UIA2_INSTALL_TIMEOUT_MS := some v} pid free
        = .ok { c with uiautomator2ServerInstallTimeout := n })
    ∧ (∀ (n : Int) (c : AndroidCaps), pyInt v = some n →
      get_android_capabilities (mkAppiumConfig "android" envName e)
          e pid free = .ok c →
      get_android_capabilities
          (mkAppiumConfig "android" envName
            {e with UIA2_LAUNCH_TIMEOUT_MS := some v})
          {e with UIA2_LAUNCH_TIMEOUT_MS := some v} pid free
        = .ok { c with uiautomator2ServerLaunchTimeout := n })
    ∧ (∀ (n : Int) (c : AndroidCaps), pyInt v = some n →
      get_android_capabilities (mkAppiumConfig "android" envName e)
          e pid free = .ok c →
      get_android_capabilities
          (mkAppiumConfig "android" envName
            {e with ADB_EXEC_TIMEOUT_MS := some v})
          {e with ADB_EXEC_TIMEOUT_MS := some v} pid free
        = .ok { c with adbExecTimeout := n })
    ∧ (∀ (k : Int) (c : AndroidCaps), pyIsDigit v = true → pyInt v = some k →
      get_android_capabilities (mkAppiumConfig "android" envName e)
          e pid free = .ok c →
      get_android_capabilities
          (mkAppiumConfig "android" envName
            {e with SYSTEM_PORT_OFFSET := some v})
          {e with SYSTEM_PORT_OFFSET := some v} pid free
        = .ok { c with systemPort := base_port + k }) := by
  refine ⟨?_, ?_, ?_, ?_, ?_, ?_, ?_, ?_, ?_, ?_, ?_, ?_, ?_⟩
  · intro hv
    exact gac_congr _ rfl (fun t => by
      simp [android_caps_record, mkAppiumConfig, _get_app_build_path, hv])
  · exact gac_congr _ rfl (fun t => rfl)
  · exact gac_congr _ rfl (fun t => rfl)
  · exact gac_congr _ rfl (fun t => rfl)
  · exact gac_congr _ rfl (fun t => rfl)
  · intro havd
    exact gac_congr _ rfl (fun t => by
      simp [android_caps_record, mkAppiumConfig, _get_app_build_path, havd])
  · intro hci
    exact gac_congr _ rfl (fun t => by
      simp [android_caps_record, mkAppiumConfig, _get_app_build_path, hci])
  · intro hci
    exact gac_congr_eq rfl (fun t => by
      simp [android_caps_record, mkAppiumConfig, _get_app_build_path, hci])
  · intro n c hv hok
    unfold get_android_capabilities at hok
    cases hn : androidNumerics e pid free with
    | error er => rw [hn] at hok; simp [Except.map] at hok
    | ok t =>
      rw [hn] at hok
      simp only [Except.map] at hok
      injection hok with hok
      obtain ⟨h1, h2, h3, h4, h5⟩ := androidNumerics_ok_elim hn
      have hn' : androidNumerics {e with ANDROID_INSTALL_TIMEOUT_MS := some v}
          pid free = .ok (n, t.2.1, t.2.2.1, t.2.2.2.1, t.2.2.2.2) :=
        androidNumerics_ok_intro (pyIntE_of_pyInt hv) h2 h3 h4 h5
      unfold get_android_capabilities
      rw [hn']
      simp only [Except.map]
      rw [← hok]
      simp [android_caps_record, mkAppiumConfig, _get_app_build_path]
  · intro n c hv hok
    unfold get_android_capabilities at hok
    cases hn : androidNumerics e pid free with
    | error er => rw [hn] at hok; simp [Except.map] at hok
    | ok t =>
      rw [hn] at hok
      simp only [Except.map] at hok
      injection hok with hok
      obtain ⟨h1, h2, h3, h4, h5⟩ := androidNumerics_ok_elim hn
      have hn' : androidNumerics {e with UIA2_INSTALL_TIMEOUT_MS := some v}
          pid free = .ok (t.1, n, t.2.2.1, t.2.2.2.1, t.2.2.2.2) :=
        androidNumerics_ok_intro h1 (pyIntE_of_pyInt hv) h3 h4 h5
      unfold get_android_capabilities
      rw [hn']
      simp only [Except.map]
      rw [← hok]
      simp [android_caps_record, mkAppiumConfig, _get_app_build_path]
  · intro n c hv hok
    unfold get_android_capabilities at hok
    cases hn : androidNumerics e pid free with
    | error er => rw [hn] at hok; simp [Except.map] at hok
    | ok t =>
      rw [hn] at hok
      simp only [Except.map] at hok
      injection hok with hok
      obtain ⟨h1, h2, h3, h4, h5⟩ := androidNumerics_ok_elim hn
      have hn' : androidNumerics {e with UIA2_LAUNCH_TIMEOUT_MS := some v}
          pid free = .ok (t.1, t.2.1, n, t.2.2.2.1, t.2.2.2.2) :=
        androidNumerics_ok_intro h1 h2 (pyIntE_of_pyInt hv) h4 h5
      unfold get_android_capabilities
      rw [hn']
      simp only [Except.map]
      rw [← hok]
      simp [android_caps_record, mkAppiumConfig, _get_app_build_path]
  · intro n c hv hok
    unfold get_android_capabilities at hok
    cases hn : androidNumerics e pid free with
    | error er => rw [hn] at hok; simp [Except.map] at hok
    | ok t =>
      rw [hn] at hok
      simp only [Except.map] at hok
      injection hok with hok
      obtain ⟨h1, h2, h3, h4, h5⟩ := androidNumerics_ok_elim hn
      have hn' : androidNumerics {e with ADB_EXEC_TIMEOUT_MS := some v}
          pid free = .ok (t.1, t.2.1, t.2.2.1, n, t.2.2.2.2) :=
        androidNumerics_ok_intro h1 h2 h3 (pyIntE_of_pyInt hv) h5
      unfold get_android_capabilities
      rw [hn']
      simp only [Except.map]
      rw [← hok]
      simp [android_caps_record, mkAppiumConfig, _get_app_build_path]
  · intro k c hdig hk hok
    unfold get_android_capabilities at hok
    cases hn : androidNumerics e pid free with
    | error er => rw [hn] at hok; simp [Except.map] at hok
    | ok t =>
      rw [hn] at hok
      simp only [Except.map] at hok
      injection hok with hok
      obtain ⟨h1, h2, h3, h4, h5⟩ := androidNumerics_ok_elim hn
      have hport : _get_system_port {e with SYSTEM_PORT_OFFSET := some v}
          pid free = .ok (base_port + k) := by
        rw [_get_system_port_eq_offset rfl]
        unfold offsetPort
        rw [if_pos hdig, hk]
      have hn' : androidNumerics {e with SYSTEM_PORT_OFFSET := some v}
          pid free = .ok (t.1, t.2.1, t.2.2.1, t.2.2.2.1, base_port + k) :=
        androidNumerics_ok_intro h1 h2 h3 h4 hport
      unfold get_android_capabilities
      rw [hn']
      simp only [Except.map]
      rw [← hok]
      simp [android_caps_record, mkAppiumConfig, _get_app_build_path]

/-- Witness for the amended C2 at concrete overrides over the empty
snapshot. -/
theorem android_override_changes_only_its_fields_witness :
    (get_android_capabilities
        (mkAppiumConfig "android" "local" {emptyEnv with ANDROID_API_LEVEL := some "35"})
        {emptyEnv with ANDROID_API_LEVEL := some "35"} 0 (fun _ => true)
      = (get_android_capabilities (mkAppiumConfig "android" "local" emptyEnv)
          emptyEnv 0 (fun _ => true)).map
          (fun c => { c with platformVersion := "35" }))
    ∧ (get_android_capabilities
        (mkAppiumConfig "android" "local" {emptyEnv with ANDROID_DEVICE_NAME := some "Pixel 7"})
        {emptyEnv with ANDROID_DEVICE_NAME := some "Pixel 7"} 0 (fun _ => true)
      = (get_android_capabilities (mkAppiumConfig "android" "local" emptyEnv)
          emptyEnv 0 (fun _ => true)).map
          (fun c => { c with deviceName := "Pixel 7", avd := "Pixel 7" }))
    ∧ (get_android_capabilities
        (mkAppiumConfig "android" "local" {emptyEnv with ANDROID_INSTALL_TIMEOUT_MS := some "1000"})
        {emptyEnv with ANDROID_INSTALL_TIMEOUT_MS := some "1000"} 0 (fun _ => true)
      = .ok { android_caps_record (mkAppiumConfig "android" "local" emptyEnv)
                emptyEnv (300000, 300000, 300000, 300000, 8200) with
              androidInstallTimeout := 1000 }) :=
  ⟨(android_override_changes_only_its_fields "local" emptyEnv 0
      (fun _ => true) "35").2.2.1,
   (android_override_changes_only_its_fields "local" emptyEnv 0
      (fun _ => true) "Pixel 7").2.2.2.2.2.1 rfl,
   (android_override_changes_only_its_fields "local" emptyEnv 0
      (fun _ => true) "1000").2.2.2.2.2.2.2.2.1 1000 _ (by decide) (by decide)⟩

/-- C2 counterexample: setting `ANDROID_DEVICE_NAME` (with
`ANDROID_AVD_NAME` unset) changes two fields of the built Android
profile — `deviceName` and `avd` — refuting the claim that every
override variable changes exactly one field. -/
theorem device_name_override_changes_two_fields :
    (get_android_capabilities
        (mkAppiumConfig "android" "local" { ANDROID_DEVICE_NAME := some "Pixel 7" })
        { ANDROID_DEVICE_NAME := some "Pixel 7" } 0 (fun _ => true)).map
        (fun c => (c.deviceName, c.avd))
      = .ok ("Pixel 7", "Pixel 7")
    ∧ (get_android_capabilities (mkAppiumConfig "android" "local" emptyEnv)
        emptyEnv 0 (fun _ => true)).map (fun c => (c.deviceName, c.avd))
      = .ok ("Android Emulator", "Medium_Phone_API_36.0") := by
  decide

end SmorTing
